import Mathlib

set_option maxRecDepth 8192

/-!
Verification of the PromptStudio core (`prompt_engine.py`) against its
natural-language specification.

The program is embedded shallowly: Python strings are modelled as `List Char`,
Python `str.find` / slicing / `strip` / `split` and the two regular
expressions used by the code are translated into executable Lean functions.
The regex word class `\w` is modelled as ASCII alphanumerics plus underscore,
and `str.lower` / whitespace as their ASCII behaviour, which is exact for all
inputs the claims quantify over.  The float comparison
`common / max(len, 1) > 0.5` is modelled by the exact integer inequality
`2 * common > max len 1`, which agrees with IEEE double division for every
`len < 2^52`.  Model-client calls are modelled as explicit oracles returning
`Except` values (`.error` = a raised exception).
-/

/-- Shorthand: the character list of a string literal. -/
def str (s : String) : List Char := s.data

/-- The ASCII apostrophe (written via its code point). -/
def apos : List Char := [Char.ofNat 39]

/-- Decimal rendering of a natural number, as Python `str(n)` / f-string
formatting produces for the nonnegative integers used by the program. -/
def natStr (n : Nat) : List Char := (Nat.repr n).data

/-- The whitespace characters recognised by Python `str.split()` / `strip()`
(ASCII fragment). -/
def isPySpace (c : Char) : Bool :=
  c == ' ' || c == '\t' || c == '\n' || c == '\r' || c == '\x0b' || c == '\x0c'

/-- Python `str.find`: index of the first occurrence of `pat` in the suffix of
`s` starting at offset `i` (offset included in the returned index), `-1` when
there is none.  Mirrors `str.find` returning `0` for the empty pattern. -/
def pyFindFrom (pat : List Char) : List Char → Nat → Int
  | [], i => if pat.isPrefixOf [] then (i : Int) else -1
  | c :: rest, i =>
    if pat.isPrefixOf (c :: rest) then (i : Int) else pyFindFrom pat rest (i + 1)

/-- Python `s.find(pat)`. -/
def pyFind (s pat : List Char) : Int := pyFindFrom pat s 0

/-- Resolve one Python slice endpoint against a length: negative indices count
from the end, then the result is clamped into `[0, len]`. -/
def pySliceIdx (len : Nat) (i : Int) : Nat :=
  (min (if i < 0 then i + (len : Int) else i) (len : Int)).toNat

/-- Python slice `s[a:b]` (step 1). -/
def pySlice (s : List Char) (a b : Int) : List Char :=
  (s.take (pySliceIdx s.length b)).drop (pySliceIdx s.length a)

/-- Python `str.strip()`: remove leading and trailing whitespace. -/
def pyStrip (s : List Char) : List Char :=
  ((s.dropWhile isPySpace).reverse.dropWhile isPySpace).reverse

/-- Maximal runs of characters satisfying `p`, in order; characters outside
the runs are discarded.  `runsBy (fun c => !isPySpace c)` is Python
`str.split()`, `runsBy isWordChar` is `re.findall(r'\w+', s)`. -/
def runsByAux (p : Char → Bool) : List Char → List Char → List (List Char)
  | [], acc => if acc = [] then [] else [acc.reverse]
  | c :: cs, acc =>
    if p c then runsByAux p cs (c :: acc)
    else if acc = [] then runsByAux p cs []
    else acc.reverse :: runsByAux p cs []

def runsBy (p : Char → Bool) (s : List Char) : List (List Char) := runsByAux p s []

/-- Python `str.split()` (split on whitespace, dropping empty fields). -/
def pySplitWs (s : List Char) : List (List Char) := runsBy (fun c => !isPySpace c) s

/-- Characters of the regex word class `\w` (ASCII model). -/
def isWordChar (c : Char) : Bool := c.isAlphanum || c == '_'

/-- `re.findall(r'\w+', s)`: the maximal word-character runs of `s`. -/
def wordRuns (s : List Char) : List (List Char) := runsBy isWordChar s

/-- Python `str.lower()` (ASCII model). -/
def lowerAll (s : List Char) : List Char := s.map Char.toLower

/-- Count of sentence-terminal punctuation: `len(re.findall(r'[.!?]', s))`. -/
def sentencePunctCount (s : List Char) : Nat :=
  (s.filter (fun c => c == '.' || c == '!' || c == '?')).length

/-- `re.search(r'\b(lorem|ipsum|error)\b', s.lower())` viewed as a Boolean:
a whole-word occurrence of a banned word is exactly a maximal word run equal
to that word. -/
def containsBanned (s : List Char) : Bool :=
  (wordRuns (lowerAll s)).any fun w =>
    w == str "lorem" || w == str "ipsum" || w == str "error"

/-- `set(re.findall(r'\w+', s.lower()))`: the distinct lowercase word tokens
of `s` (order of first occurrence; used only as a set). -/
def keywords (s : List Char) : List (List Char) := (wordRuns (lowerAll s)).dedup

/-- `len(set(prompt_tokens) & set(output_tokens))`. -/
def commonKeywordCount (output prompt : List Char) : Nat :=
  ((keywords prompt).filter (fun w => decide (w ∈ keywords output))).length

/-- `score_output` from `prompt_engine.py` (lines 98-134): additive buckets
for clarity, relevance and length, clamped at 100. -/
def score_output (output prompt : List Char) : Nat :=
  let score1 :=
    if 10 < (pySplitWs output).length ∧ 1 < sentencePunctCount output then 30 else 0
  let score2 := if containsBanned output then score1 else score1 + 10
  let common_keywords := commonKeywordCount output prompt
  let score3 :=
    if 2 * common_keywords > max (keywords prompt).length 1 then score2 + 30
    else if 0 < common_keywords then score2 + 20
    else score2
  let word_count := (pySplitWs output).length
  let score4 :=
    if 50 ≤ word_count ∧ word_count ≤ 500 then score3 + 20
    else if (20 ≤ word_count ∧ word_count < 50) ∨ (500 < word_count ∧ word_count ≤ 1000) then score3 + 10
    else score3
  min score4 100

/-- Claim C4 (counterexample): the claim `score("", anyPrompt) = 0` fails on
the code: the empty output contains no banned word, so the banned-word check
awards 10 points. -/
theorem score_output_empty_cex : score_output [] (str "Write a poem") ≠ 0 := by
  decide

/-- Claim C4 (amended): for every prompt, scoring the empty output yields 10:
the empty output fails the word-count, sentence-count, relevance and length
checks, but passes the no-banned-words check, which awards 10 points. -/
theorem score_output_empty_eq_ten (prompt : List Char) : score_output [] prompt = 10 := by
  have hkw : keywords ([] : List Char) = [] := rfl
  have hfilter : (keywords prompt).filter (fun w => decide (w ∈ keywords [])) = [] := by
    rw [hkw]; simp
  simp [score_output, commonKeywordCount, hfilter, pySplitWs, runsBy, runsByAux,
    sentencePunctCount, containsBanned, wordRuns, lowerAll]

/-- Claim C5: the scorer is a pure deterministic function of the pair
(output, prompt), and its value always lies in `[0, 100]`. -/
theorem score_output_deterministic_in_range (output prompt : List Char) :
    score_output output prompt = score_output output prompt ∧
    score_output output prompt ≤ 100 := by
  refine ⟨rfl, ?_⟩
  unfold score_output
  exact Nat.min_le_right _ _

/-- Claim C7: an output with exactly 100 whitespace-delimited words, more
than one sentence-terminal punctuation mark, no banned word, and a keyword
overlap ratio above 0.5 scores exactly 30 + 10 + 30 + 20 = 90. -/
theorem score_output_ninety (output prompt : List Char)
    (hwords : (pySplitWs output).length = 100)
    (hpunct : 1 < sentencePunctCount output)
    (hban : containsBanned output = false)
    (hratio : 2 * commonKeywordCount output prompt > max (keywords prompt).length 1) :
    score_output output prompt = 90 := by
  unfold score_output
  rw [hwords, hban]
  simp only [hratio, if_true, hpunct, and_true]
  norm_num

/-! ## Response segmentation (`generate_prompts`, lines 54-68) -/

/-- One parsed prompt variant (a dict `{"id": .., "style": .., "prompt": ..}`
produced by `generate_prompts`). -/
structure GenVariant where
  id : Nat
  style : List Char
  prompt : List Char
deriving DecidableEq, Repr

/-- `PROMPT_STYLES` (line 12). -/
def PROMPT_STYLES : List (List Char) :=
  [str "Concise", str "Detailed", str "Structured", str "Creative"]

/-- `PROMPT_STYLES[k]` (0-based). -/
def styleAt (k : Nat) : List Char := PROMPT_STYLES.getD k []

/-- The literal marker `f"**{style}**:"`. -/
def markerOf (style : List Char) : List Char := str "**" ++ style ++ str "**:"

/-- The parse-failure sentinel `f"Error: Could not generate {style} prompt."`
(line 66). -/
def sentinelFor (style : List Char) : List Char :=
  str "Error: Could not generate " ++ style ++ str " prompt."

/-- Lines 56-60 for the 1-indexed position `idx`: locate the start marker,
the end marker of the cyclically next style (or end of response for the last
style), slice, and strip.  `str.find` returning `-1` on a missing marker
flows into the slice arithmetic exactly as in Python. -/
def parsedText (response : List Char) (idx : Nat) : List Char :=
  let start_marker := markerOf (styleAt (idx - 1))
  let start_idx : Int := pyFind response start_marker + (start_marker.length : Int)
  let end_idx : Int :=
    if idx < PROMPT_STYLES.length then
      pyFind response (markerOf (styleAt (idx % PROMPT_STYLES.length)))
    else (response.length : Int)
  pyStrip (pySlice response start_idx end_idx)

/-- Lines 62-66: a nonempty parsed text is used as is, an empty one is
replaced by the sentinel. -/
def promptOrSentinel (style t : List Char) : List Char :=
  if t ≠ [] then t else sentinelFor style

/-- The parsing loop of `generate_prompts` at 0-based position `k`. -/
def buildVariant (response : List Char) (k : Nat) : GenVariant :=
  let style := styleAt k
  let txt := parsedText response (k + 1)
  if txt ≠ [] then ⟨k + 1, style, txt⟩ else ⟨k + 1, style, sentinelFor style⟩

/-- The full parsing loop (lines 54-68): one variant per style, in order. -/
def segmentResponse (response : List Char) : List GenVariant :=
  (List.range PROMPT_STYLES.length).map (buildVariant response)

theorem buildVariant_eq (response : List Char) (k : Nat) :
    buildVariant response k =
      ⟨k + 1, styleAt k, promptOrSentinel (styleAt k) (parsedText response (k + 1))⟩ := by
  show (if parsedText response (k + 1) ≠ [] then
      (⟨k + 1, styleAt k, parsedText response (k + 1)⟩ : GenVariant)
    else ⟨k + 1, styleAt k, sentinelFor (styleAt k)⟩) = _
  unfold promptOrSentinel
  split <;> rfl

theorem segmentResponse_unfold (response : List Char) :
    segmentResponse response =
      [buildVariant response 0, buildVariant response 1,
       buildVariant response 2, buildVariant response 3] := rfl

/-- A successful `pyFindFrom` points at an occurrence of the pattern. -/
theorem pyFindFrom_prefix (pat : List Char) :
    ∀ (t : List Char) (i a : Nat), pyFindFrom pat t i = (a : Int) →
      i ≤ a ∧ pat.isPrefixOf (t.drop (a - i)) = true := by
  intro t
  induction t with
  | nil =>
    intro i a h
    unfold pyFindFrom at h
    by_cases hp : pat.isPrefixOf [] = true
    · rw [if_pos hp] at h
      have : i = a := by exact_mod_cast h
      subst this
      simpa using hp
    · rw [if_neg hp] at h
      exfalso
      omega
  | cons c rest ih =>
    intro i a h
    unfold pyFindFrom at h
    by_cases hp : pat.isPrefixOf (c :: rest) = true
    · rw [if_pos hp] at h
      have : i = a := by exact_mod_cast h
      subst this
      simpa using hp
    · rw [if_neg hp] at h
      obtain ⟨hle, hpre⟩ := ih (i + 1) a h
      refine ⟨by omega, ?_⟩
      have hd : (c :: rest).drop (a - i) = rest.drop (a - (i + 1)) := by
        have : a - i = (a - (i + 1)) + 1 := by omega
        rw [this]
        rfl
      rw [hd]
      exact hpre

/-- A found pattern fits inside the string. -/
theorem pyFind_le (s pat : List Char) (a : Nat) (h : pyFind s pat = (a : Int))
    (hne : pat ≠ []) : a + pat.length ≤ s.length := by
  obtain ⟨-, hpre⟩ := pyFindFrom_prefix pat s 0 a h
  rw [Nat.sub_zero] at hpre
  have hlen : pat.length ≤ (s.drop a).length :=
    (List.isPrefixOf_iff_prefix.mp hpre).length_le
  rw [List.length_drop] at hlen
  have hpos : 0 < pat.length := List.length_pos.mpr hne
  omega

theorem pySliceIdx_coe (len a : Nat) (h : a ≤ len) : pySliceIdx len (a : Int) = a := by
  unfold pySliceIdx
  rw [if_neg (by omega)]
  rw [min_eq_left (by exact_mod_cast h)]
  exact Int.toNat_natCast a

/-- For in-range nonnegative endpoints, a Python slice is `take`-then-`drop`. -/
theorem pySlice_of_le (s : List Char) (a b : Nat) (ha : a ≤ s.length)
    (hb : b ≤ s.length) : pySlice s (a : Int) (b : Int) = (s.take b).drop a := by
  unfold pySlice
  rw [pySliceIdx_coe _ _ ha, pySliceIdx_coe _ _ hb]

/-- A well-formed raw response: all four markers, in canonical order. -/
def rexC2 : List Char :=
  str "**Concise**: A **Detailed**: B **Structured**: C **Creative**: D"

/-- A malformed raw response: 30 marker-free characters. -/
def r3ex : List Char := str "aaaaaaaaaaaaaaaaaaaaaaaaaaaaaa"

/-- Claim C2 (counterexample): `rexC2` contains all four markers in canonical
order (at indices 0, 15, 31, 49), yet the parsed prompt texts are NOT the
exact substrings between the markers: the code strips surrounding whitespace
(" A " is parsed as "A"). -/
theorem segment_exact_substring_cex :
    pyFind rexC2 (str "**Concise**:") = 0 ∧
    pyFind rexC2 (str "**Detailed**:") = 15 ∧
    pyFind rexC2 (str "**Structured**:") = 31 ∧
    pyFind rexC2 (str "**Creative**:") = 49 ∧
    (segmentResponse rexC2).map (fun v => v.prompt) ≠
      [(rexC2.take 15).drop 12, (rexC2.take 31).drop 28,
       (rexC2.take 49).drop 46, rexC2.drop 62] := by
  decide

/-- Claim C2 (amended): for every raw response in which the four markers
first occur in canonical order at positions `a1 < a2 < a3 < a4` (each after
the end of the previous marker), the segmenter returns exactly the four
variants with ids 1..4 in order, and each variant's prompt text is the
whitespace-trimmed substring between its own marker and the next style's
marker (end of response for the last style), falling back to the sentinel
only if that trimmed substring is empty. -/
theorem segment_all_markers_trimmed (response : List Char) (a1 a2 a3 a4 : Nat)
    (h1 : pyFind response (str "**Concise**:") = (a1 : Int))
    (h2 : pyFind response (str "**Detailed**:") = (a2 : Int))
    (h3 : pyFind response (str "**Structured**:") = (a3 : Int))
    (h4 : pyFind response (str "**Creative**:") = (a4 : Int))
    (o12 : a1 + 12 ≤ a2) (o23 : a2 + 13 ≤ a3) (o34 : a3 + 15 ≤ a4) :
    segmentResponse response =
      [⟨1, str "Concise", promptOrSentinel (str "Concise") (pyStrip ((response.take a2).drop (a1 + 12)))⟩,
       ⟨2, str "Detailed", promptOrSentinel (str "Detailed") (pyStrip ((response.take a3).drop (a2 + 13)))⟩,
       ⟨3, str "Structured", promptOrSentinel (str "Structured") (pyStrip ((response.take a4).drop (a3 + 15)))⟩,
       ⟨4, str "Creative", promptOrSentinel (str "Creative") (pyStrip (response.drop (a4 + 13)))⟩] := by
  have hlen : a4 + 13 ≤ response.length := pyFind_le _ _ _ h4 (by decide)
  have e1 : parsedText response 1 =
      pyStrip (pySlice response (pyFind response (str "**Concise**:") + 12)
        (pyFind response (str "**Detailed**:"))) := rfl
  have e2 : parsedText response 2 =
      pyStrip (pySlice response (pyFind response (str "**Detailed**:") + 13)
        (pyFind response (str "**Structured**:"))) := rfl
  have e3 : parsedText response 3 =
      pyStrip (pySlice response (pyFind response (str "**Structured**:") + 15)
        (pyFind response (str "**Creative**:"))) := rfl
  have e4 : parsedText response 4 =
      pyStrip (pySlice response (pyFind response (str "**Creative**:") + 13)
        ((response.length : Nat) : Int)) := rfl
  rw [h1, h2] at e1
  rw [h2, h3] at e2
  rw [h3, h4] at e3
  rw [h4] at e4
  have c1 : ((a1 : Int) + 12) = ((a1 + 12 : Nat) : Int) := by push_cast; ring
  have c2 : ((a2 : Int) + 13) = ((a2 + 13 : Nat) : Int) := by push_cast; ring
  have c3 : ((a3 : Int) + 15) = ((a3 + 15 : Nat) : Int) := by push_cast; ring
  have c4 : ((a4 : Int) + 13) = ((a4 + 13 : Nat) : Int) := by push_cast; ring
  rw [c1, pySlice_of_le response _ _ (by omega) (by omega)] at e1
  rw [c2, pySlice_of_le response _ _ (by omega) (by omega)] at e2
  rw [c3, pySlice_of_le response _ _ (by omega) (by omega)] at e3
  rw [c4, pySlice_of_le response _ _ (by omega) (by omega), List.take_length] at e4
  rw [segmentResponse_unfold]
  simp only [buildVariant_eq]
  norm_num
  rw [e1, e2, e3, e4]
  norm_num [styleAt, PROMPT_STYLES]

/-- Claim C2 (witness): the amended theorem applied to `rexC2`. -/
theorem segment_all_markers_trimmed_witness :
    segmentResponse rexC2 =
      [⟨1, str "Concise", promptOrSentinel (str "Concise") (pyStrip ((rexC2.take 15).drop 12))⟩,
       ⟨2, str "Detailed", promptOrSentinel (str "Detailed") (pyStrip ((rexC2.take 31).drop 28))⟩,
       ⟨3, str "Structured", promptOrSentinel (str "Structured") (pyStrip ((rexC2.take 49).drop 46))⟩,
       ⟨4, str "Creative", promptOrSentinel (str "Creative") (pyStrip (rexC2.drop 62))⟩] :=
  segment_all_markers_trimmed rexC2 0 15 31 49 (by decide) (by decide) (by decide)
    (by decide) (by decide) (by decide) (by decide)

/-- Claim C3 (counterexample): all four markers are absent from `r3ex`, yet
the parsed variants do NOT all carry the sentinel text: `find` returns -1,
`start_idx` becomes `len(marker) - 1` and `end_idx` becomes `-1`, which on
this 30-character marker-free response slices out nonempty garbage. -/
theorem segment_missing_sentinel_cex :
    pyFind r3ex (str "**Concise**:") = -1 ∧
    pyFind r3ex (str "**Detailed**:") = -1 ∧
    pyFind r3ex (str "**Structured**:") = -1 ∧
    pyFind r3ex (str "**Creative**:") = -1 ∧
    (segmentResponse r3ex).map (fun v => v.prompt) ≠
      [sentinelFor (str "Concise"), sentinelFor (str "Detailed"),
       sentinelFor (str "Structured"), sentinelFor (str "Creative")] := by
  decide

/-- Claim C3 (amended): for every raw response — in particular every
malformed one missing a marker — the segmenter returns exactly 4 variants
with ids 1..4 and the canonical styles, raising nothing; a variant carries
the "could not generate" sentinel whenever its computed slice is empty after
trimming (e.g. for the empty response), though a missing marker alone does
not force this. -/
theorem segment_total_and_sentinel (response : List Char) :
    (segmentResponse response).length = 4 ∧
    (segmentResponse response).map (fun v => v.id) = [1, 2, 3, 4] ∧
    (segmentResponse response).map (fun v => v.style) = PROMPT_STYLES ∧
    ∀ k, k < 4 → parsedText response (k + 1) = [] →
      (segmentResponse response)[k]? = some ⟨k + 1, styleAt k, sentinelFor (styleAt k)⟩ := by
  refine ⟨?_, ?_, ?_, ?_⟩
  · rw [segmentResponse_unfold]; rfl
  · rw [segmentResponse_unfold]; simp only [buildVariant_eq, List.map_cons, List.map_nil]
  · rw [segmentResponse_unfold]; simp only [buildVariant_eq, List.map_cons, List.map_nil]; rfl
  · intro k hk he
    interval_cases k <;>
      simp [segmentResponse_unfold, buildVariant_eq, promptOrSentinel, he]

/-- Claim C3 (witness): the amended theorem applied to the empty response,
whose trimmed slice for the first style is empty, so the Concise variant is
the sentinel placeholder. -/
theorem segment_total_and_sentinel_witness :
    parsedText [] 1 = [] ∧
    (segmentResponse [])[0]? = some ⟨1, styleAt 0, sentinelFor (styleAt 0)⟩ :=
  ⟨by decide, (segment_total_and_sentinel []).2.2.2 0 (by decide) (by decide)⟩

/-- A 100-word output: 4 real words with 3 sentence marks, then 96 fillers. -/
def w7out : List Char :=
  str "alpha beta. gamma! delta." ++ (List.replicate 96 (str " w")).flatten

/-- A 3-keyword prompt fully covered by `w7out`. -/
def w7prompt : List Char := str "alpha beta gamma"

/-- Claim C7 (witness): the scoring theorem applied to a concrete output
with 100 words, 3 sentence marks, no banned words, and full keyword
overlap. -/
theorem score_output_ninety_witness :
    (pySplitWs w7out).length = 100 ∧ 1 < sentencePunctCount w7out ∧
    containsBanned w7out = false ∧
    2 * commonKeywordCount w7out w7prompt > max (keywords w7prompt).length 1 ∧
    score_output w7out w7prompt = 90 :=
  ⟨by decide, by decide, by decide, by decide,
   score_output_ninety w7out w7prompt (by decide) (by decide) (by decide) (by decide)⟩

/-! ## Prompt refinement (`refine_prompt`, lines 136-169) -/

/-- `re.search(r'\b(tone|style|audience)\b', prompt.lower())` as a Boolean
(same whole-word reading as `containsBanned`). -/
def mentionsToneStyleAudience (prompt : List Char) : Bool :=
  (wordRuns (lowerAll prompt)).any fun w =>
    w == str "tone" || w == str "style" || w == str "audience"

/-- The refinement suggestions (lines 150-156), in append order. -/
def refinements (prompt output : List Char) (score : Nat) : List (List Char) :=
  (if score < 80 then [str "Add more specific instructions for clarity."] else []) ++
  (if (pySplitWs output).length < 50 then [str "Increase the expected output length."] else []) ++
  (if mentionsToneStyleAudience prompt then [] else [str "Specify tone and target audience."])

/-- `', '.join(refinements) or 'None'`. -/
def joinedRefinements (prompt output : List Char) (score : Nat) : List Char :=
  if List.intercalate (str ", ") (refinements prompt output score) = [] then str "None"
  else List.intercalate (str ", ") (refinements prompt output score)

/-- The refinement meta-request (lines 158-160). -/
def refineMeta (prompt output : List Char) (score : Nat) : List Char :=
  str "\nYou are an expert prompt engineer tasked with refining the following prompt to improve its clarity, specificity, and effectiveness. Original prompt: "
    ++ apos ++ prompt ++ apos
    ++ str ". Test output: " ++ apos ++ output.take 200 ++ str "..." ++ apos
    ++ str ". Score: " ++ natStr score
    ++ str "/100. Suggested refinements: " ++ joinedRefinements prompt output score
    ++ str ". Return the refined prompt.\n"

/-- `refine_prompt` (lines 136-169): one model call on the meta-request; a
successful completion is stripped and returned, a failure is caught and the
original prompt is returned unchanged. -/
def refine_prompt (complete : List Char → Except (List Char) (List Char))
    (prompt output : List Char) (score : Nat) : List Char :=
  match complete (refineMeta prompt output score) with
  | Except.ok refined => pyStrip refined
  | Except.error _ => prompt

/-- Claim C6: whenever the refiner's model call fails, `refine_prompt`
returns the original prompt byte-for-byte and propagates nothing. -/
theorem refine_prompt_fallback (complete : List Char → Except (List Char) (List Char))
    (prompt output : List Char) (score : Nat) (e : List Char)
    (h : complete (refineMeta prompt output score) = Except.error e) :
    refine_prompt complete prompt output score = prompt := by
  unfold refine_prompt
  rw [h]

/-- Claim C6 (witness): the fallback theorem at a concrete always-failing
model call. -/
theorem refine_prompt_fallback_witness :
    refine_prompt (fun _ => Except.error (str "boom")) (str "p") (str "o") 50 = str "p" :=
  refine_prompt_fallback _ (str "p") (str "o") 50 (str "boom") rfl

/-! ## Prompt generation meta-request (`generate_prompts`, lines 27-46) -/

/-- The creativity modifier (line 27). -/
def creativity_modifier (creativity_level : Int) : List Char :=
  if 7 < creativity_level then str "highly creative and innovative"
  else if 4 < creativity_level then str "moderately creative"
  else str "clear and straightforward"

/-- Meta-request literal text up to the first interpolation. -/
def metaP1 : List Char :=
  str "\nYou are an expert prompt engineering team tasked with creating 4 professional prompt versions for the rough prompt idea "
    ++ apos

/-- Meta-request literal text between the rough idea and the modifier. -/
def metaP2 : List Char :=
  apos ++ str ". Each prompt must have a distinct style: Concise, Detailed, Structured, and Creative. Ensure the prompts are "

/-- Meta-request literal text between the modifier and the second
interpolation of the rough idea. -/
def metaP3 : List Char :=
  str ", relevant to the topic, and optimized for clarity and effectiveness. Return the prompts in the following format, with each prompt labeled:\n\n1. **Concise**: A short, direct prompt (50-100 words).\n2. **Detailed**: A comprehensive prompt (150-200 words) with specific instructions.\n3. **Structured**: A prompt (100-150 words) using bullet points or numbered steps.\n4. **Creative**: A novel, engaging prompt (100-150 words) with a unique angle.\n\nExample for rough prompt "
    ++ apos ++ str "Write a blog about AI trends" ++ apos
    ++ str ":\n1. **Concise**: Write a 500-word blog on key AI trends in 2025, focusing on industry impacts.\n2. **Detailed**: Write a 1000-word blog exploring AI trends in 2025, including case studies, data, and predictions, in a professional tone for tech executives.\n3. **Structured**: Write a 750-word blog on AI trends, covering:\n   - Current advancements\n   - Industry applications\n   - Future outlook\n4. **Creative**: Craft a 600-word blog as a futuristic AI narrating 2025 trends, blending humor and insight.\n\nGenerate the 4 prompts for "
    ++ apos

/-- Meta-request trailing literal text. -/
def metaP4 : List Char := apos ++ str ".\n"

/-- The generation meta-request (lines 28-46). -/
def meta_prompt (rough_prompt : List Char) (creativity_level : Int) : List Char :=
  metaP1 ++ rough_prompt ++ metaP2 ++ creativity_modifier creativity_level
    ++ metaP3 ++ rough_prompt ++ metaP4

/-- Claim C8: for every rough idea, the generation meta-request contains the
phrase "highly creative and innovative" whenever creativityLevel > 7, and
"clear and straightforward" whenever creativityLevel ≤ 4. -/
theorem meta_prompt_creativity_phrases (rough_prompt : List Char) (creativity_level : Int) :
    (7 < creativity_level →
      str "highly creative and innovative" <:+: meta_prompt rough_prompt creativity_level) ∧
    (creativity_level ≤ 4 →
      str "clear and straightforward" <:+: meta_prompt rough_prompt creativity_level) := by
  constructor
  · intro h
    refine ⟨metaP1 ++ rough_prompt ++ metaP2, metaP3 ++ rough_prompt ++ metaP4, ?_⟩
    unfold meta_prompt creativity_modifier
    rw [if_pos h]
    simp [List.append_assoc]
  · intro h
    refine ⟨metaP1 ++ rough_prompt ++ metaP2, metaP3 ++ rough_prompt ++ metaP4, ?_⟩
    unfold meta_prompt creativity_modifier
    rw [if_neg (by omega), if_neg (by omega)]
    simp [List.append_assoc]

/-- Claim C8 (witness): the phrase theorem at the spec's concrete scenario
(rough idea "Write a blog about AI trends", levels 8 and 3). -/
theorem meta_prompt_creativity_phrases_witness :
    (str "highly creative and innovative" <:+: meta_prompt (str "Write a blog about AI trends") 8) ∧
    (str "clear and straightforward" <:+: meta_prompt (str "Write a blog about AI trends") 3) :=
  ⟨(meta_prompt_creativity_phrases (str "Write a blog about AI trends") 8).1 (by decide),
   (meta_prompt_creativity_phrases (str "Write a blog about AI trends") 3).2 (by decide)⟩

/-! ## Prompt testing (`test_prompt`, lines 74-96) -/

/-- `f"Iteration {i+1}: {output}"` (line 92), for 0-based `i`. -/
def iterLabel (i : Nat) (output : List Char) : List Char :=
  str "Iteration " ++ natStr (i + 1) ++ str ": " ++ output

/-- The test loop (lines 89-92): one model call per iteration, labelled in
call order; the first failure aborts the loop (and `test_prompt` re-raises).
`complete i` is the model's answer to the `i`-th call of the tested prompt. -/
def testIter (complete : Nat → Except (List Char) (List Char)) :
    Nat → Nat → Except (List Char) (List (List Char))
  | _, 0 => Except.ok []
  | i, k + 1 =>
    match complete i with
    | Except.error e => Except.error e
    | Except.ok output =>
      match testIter complete (i + 1) k with
      | Except.error e => Except.error e
      | Except.ok rest => Except.ok (iterLabel i output :: rest)

/-- `test_prompt` (lines 74-96): run the loop and join with newlines. -/
def test_prompt (complete : Nat → Except (List Char) (List Char)) (iterations : Nat) :
    Except (List Char) (List Char) :=
  match testIter complete 0 iterations with
  | Except.error e => Except.error e
  | Except.ok outputs => Except.ok (List.intercalate (str "\n") outputs)

theorem testIter_ok (complete : Nat → Except (List Char) (List Char)) (outs : Nat → List Char) :
    ∀ (k i : Nat), (∀ j, j < k → complete (i + j) = Except.ok (outs (i + j))) →
      testIter complete i k =
        Except.ok ((List.range k).map fun j => iterLabel (i + j) (outs (i + j))) := by
  intro k
  induction k with
  | zero => intro i _; rfl
  | succ k ih =>
    intro i h
    have h0 : complete i = Except.ok (outs i) := by
      have := h 0 (by omega)
      simpa using this
    have hrec := ih (i + 1) (fun j hj => by
      have := h (j + 1) (by omega)
      rwa [show i + (j + 1) = i + 1 + j by omega] at this)
    unfold testIter
    rw [h0, hrec]
    have hmap : ((List.range (k + 1)).map fun j => iterLabel (i + j) (outs (i + j))) =
        iterLabel i (outs i) ::
          ((List.range k).map fun j => iterLabel (i + 1 + j) (outs (i + 1 + j))) := by
      rw [List.range_succ_eq_map, List.map_cons, List.map_map]
      simp only [Nat.add_zero]
      congr 1
      apply List.map_congr_left
      intro a _
      simp only [Function.comp_apply]
      rw [show i + (a + 1) = i + 1 + a by omega]
    rw [hmap]

/-- Claim C10: for `iterations = n` with all model calls succeeding,
`test_prompt` returns exactly the outputs labeled "Iteration 1:" ..
"Iteration n:" in call order, joined by single newlines; in particular for
`n = 0` it returns the empty string without consulting the model at all
(second conjunct: for every oracle). -/
theorem test_prompt_spec (complete : Nat → Except (List Char) (List Char))
    (iterations : Nat) (outs : Nat → List Char)
    (h : ∀ i, i < iterations → complete i = Except.ok (outs i)) :
    test_prompt complete iterations =
      Except.ok (List.intercalate (str "\n")
        ((List.range iterations).map fun i => iterLabel i (outs i))) ∧
    ∀ c : Nat → Except (List Char) (List Char), test_prompt c 0 = Except.ok [] := by
  constructor
  · have hit := testIter_ok complete outs iterations 0 (fun j hj => by simpa using h j hj)
    have hmap : ((List.range iterations).map fun j => iterLabel (0 + j) (outs (0 + j))) =
        ((List.range iterations).map fun i => iterLabel i (outs i)) := by
      apply List.map_congr_left
      intro a _
      simp
    unfold test_prompt
    rw [hit, hmap]
  · intro c
    rfl

/-- Claim C10 (witness): two successful iterations of a constant oracle
produce the two labelled outputs joined by one newline. -/
theorem test_prompt_spec_witness :
    test_prompt (fun _ => Except.ok (str "out")) 2 =
      Except.ok (str "Iteration 1: out\nIteration 2: out") :=
  ((test_prompt_spec (fun _ => Except.ok (str "out")) 2 (fun _ => str "out")
    (fun _ _ => rfl)).1).trans (by rfl)

/-! ## Report generation (`generate_report`, lines 171-218) -/

/-- A fully processed variant dict: `{"id", "style", "prompt", "output",
"score"}` after the orchestrator's test/score loop. -/
structure ScoredVariant where
  id : Nat
  style : List Char
  prompt : List Char
  output : List Char
  score : Nat
deriving DecidableEq, Repr

/-- Report header (lines 185-193); `now` stands for the
`datetime.now().isoformat()` timestamp, an input of the embedding. -/
def reportHeader (now rough_prompt : List Char) : List Char :=
  str "\nPromptStudio Report\n==================\nGenerated: " ++ now
    ++ str "\nOriginal Rough Prompt: " ++ rough_prompt
    ++ str "\n\n1. Generated Prompts\n-------------------\n"

/-- One per-variant block (lines 195-203). -/
def reportBlock (p : ScoredVariant) : List Char :=
  str "\nPrompt " ++ natStr p.id ++ str " (" ++ p.style ++ str "):\n" ++ p.prompt
    ++ str "\n\nTest Output:\n" ++ pySlice p.output 0 500
    ++ str "...\n\nScore: " ++ natStr p.score ++ str "/100\n"

/-- `', '.join(p['style'] for p in prompts)`. -/
def stylesJoined (prompts : List ScoredVariant) : List Char :=
  List.intercalate (str ", ") (prompts.map fun p => p.style)

/-- Report footer (lines 205-216), with the already-computed maximum `hs`. -/
def reportFooter (prompts : List ScoredVariant) (refined_prompt : List Char) (hs : Nat) :
    List Char :=
  str "\n2. Refined Prompt\n----------------\n" ++ refined_prompt
    ++ str "\n\n3. Summary\n----------\nProcessed " ++ natStr prompts.length
    ++ str " prompts with styles: " ++ stylesJoined prompts ++ str ".\n"
    ++ (str "Highest score: " ++ natStr hs ++ str "/100.")
    ++ str "\nRefinement improved the best prompt based on test feedback.\n==================\n"

/-- `generate_report` (lines 171-218).  `max(p['score'] for p in prompts)`
raises on an empty sequence, modelled by `none`; otherwise it is a left fold
of `max` over the scores. -/
def generate_report (now rough_prompt : List Char) (prompts : List ScoredVariant)
    (refined_prompt : List Char) : Option (List Char) :=
  match prompts with
  | [] => none
  | p :: ps =>
    some (reportHeader now rough_prompt
      ++ (p :: ps).foldl (fun acc q => acc ++ reportBlock q) []
      ++ reportFooter (p :: ps) refined_prompt
          (ps.foldl (fun m q => max m q.score) p.score))

theorem foldl_max_ge_init (l : List ScoredVariant) :
    ∀ a : Nat, a ≤ l.foldl (fun m q => max m q.score) a := by
  induction l with
  | nil => intro a; exact le_refl a
  | cons q t ih =>
    intro a
    calc a ≤ max a q.score := le_max_left _ _
    _ ≤ t.foldl (fun m q => max m q.score) (max a q.score) := ih _

theorem foldl_max_ge_mem (l : List ScoredVariant) :
    ∀ (a : Nat) (q : ScoredVariant), q ∈ l → q.score ≤ l.foldl (fun m q => max m q.score) a := by
  induction l with
  | nil => intro a q hq; exact absurd hq (List.not_mem_nil q)
  | cons p t ih =>
    intro a q hq
    rcases List.mem_cons.mp hq with h | h
    · subst h
      calc q.score ≤ max a q.score := le_max_right _ _
      _ ≤ t.foldl (fun m q => max m q.score) (max a q.score) := foldl_max_ge_init t _
    · exact ih _ q h

theorem foldl_max_attained (l : List ScoredVariant) :
    ∀ a : Nat, l.foldl (fun m q => max m q.score) a = a ∨
      ∃ q ∈ l, l.foldl (fun m q => max m q.score) a = q.score := by
  induction l with
  | nil => intro a; exact Or.inl rfl
  | cons p t ih =>
    intro a
    rcases ih (max a p.score) with h | ⟨q, hq, hval⟩
    · rcases max_choice a p.score with hm | hm
      · exact Or.inl (by rw [List.foldl_cons, h, hm])
      · exact Or.inr ⟨p, List.mem_cons_self p t, by rw [List.foldl_cons, h, hm]⟩
    · exact Or.inr ⟨q, List.mem_cons_of_mem p hq, by rw [List.foldl_cons, hval]⟩

/-- Claim C9: on any non-empty variant list the report is produced (no
failure), and its "Highest score" line states exactly the maximum of the
variants' scores (an upper bound that is attained). -/
theorem generate_report_highest_score (now rough_prompt refined_prompt : List Char)
    (prompts : List ScoredVariant) (hne : prompts ≠ []) :
    ∃ r hs, generate_report now rough_prompt prompts refined_prompt = some r ∧
      (str "Highest score: " ++ natStr hs ++ str "/100.") <:+: r ∧
      (∀ q ∈ prompts, q.score ≤ hs) ∧ (∃ q ∈ prompts, q.score = hs) := by
  match prompts, hne with
  | p :: ps, _ =>
    refine ⟨_, ps.foldl (fun m q => max m q.score) p.score, rfl, ?_, ?_, ?_⟩
    · refine ⟨reportHeader now rough_prompt
        ++ (p :: ps).foldl (fun acc q => acc ++ reportBlock q) []
        ++ (str "\n2. Refined Prompt\n----------------\n" ++ refined_prompt
          ++ str "\n\n3. Summary\n----------\nProcessed " ++ natStr (p :: ps).length
          ++ str " prompts with styles: " ++ stylesJoined (p :: ps) ++ str ".\n"),
        str "\nRefinement improved the best prompt based on test feedback.\n==================\n", ?_⟩
      unfold reportFooter
      simp [List.append_assoc]
    · intro q hq
      rcases List.mem_cons.mp hq with h | h
      · subst h; exact foldl_max_ge_init ps q.score
      · exact foldl_max_ge_mem ps p.score q h
    · rcases foldl_max_attained ps p.score with h | ⟨q, hq, hval⟩
      · exact ⟨p, List.mem_cons_self p ps, h.symm⟩
      · exact ⟨q, List.mem_cons_of_mem p hq, hval.symm⟩

/-- Claim C9 (witness): the report theorem at a concrete one-variant list. -/
theorem generate_report_highest_score_witness :
    ∃ r hs, generate_report (str "T") (str "idea")
        [⟨1, str "Concise", str "p", str "o", 42⟩] (str "ref") = some r ∧
      (str "Highest score: " ++ natStr hs ++ str "/100.") <:+: r ∧
      (∀ q ∈ [(⟨1, str "Concise", str "p", str "o", 42⟩ : ScoredVariant)], q.score ≤ hs) ∧
      (∃ q ∈ [(⟨1, str "Concise", str "p", str "o", 42⟩ : ScoredVariant)], q.score = hs) :=
  generate_report_highest_score (str "T") (str "idea") (str "ref")
    [⟨1, str "Concise", str "p", str "o", 42⟩] (by decide)

/-! ## Orchestration (`run_studio`, lines 220-260) -/

/-- Decidable equality of model-call results (used only to evaluate concrete
oracles in witnesses). -/
instance {e a : Type} [DecidableEq e] [DecidableEq a] : DecidableEq (Except e a) :=
  fun x y =>
    match x, y with
    | Except.ok v, Except.ok w =>
      if h : v = w then Decidable.isTrue (by rw [h])
      else Decidable.isFalse (fun hc => h (Except.ok.inj hc))
    | Except.error v, Except.error w =>
      if h : v = w then Decidable.isTrue (by rw [h])
      else Decidable.isFalse (fun hc => h (Except.error.inj hc))
    | Except.ok _, Except.error _ => Decidable.isFalse (fun hc => Except.noConfusion hc)
    | Except.error _, Except.ok _ => Decidable.isFalse (fun hc => Except.noConfusion hc)

/-- One pass of the test/score loop body (lines 240-247) on a variant, given
the outcome of its `test_prompt` call: on success the output is recorded and
scored, on failure the output becomes `f"Error: {str(e)}"` and the score 0. -/
def scoreOne (t : Except (List Char) (List Char)) (g : GenVariant) : ScoredVariant :=
  match t with
  | Except.ok output => ⟨g.id, g.style, g.prompt, output, score_output output g.prompt⟩
  | Except.error e => ⟨g.id, g.style, g.prompt, str "Error: " ++ e, 0⟩

/-- The test/score loop (lines 239-247); `oracle v i` is the model's answer
to iteration `i` of the variant at 0-based list position `v`. -/
def testAndScoreAll (oracle : Nat → Nat → Except (List Char) (List Char))
    (iterations : Nat) : Nat → List GenVariant → List ScoredVariant
  | _, [] => []
  | k, g :: gs =>
    scoreOne (test_prompt (oracle k) iterations) g
      :: testAndScoreAll oracle iterations (k + 1) gs

/-- `max(prompts, key=lambda p: p['score'], default=prompts[0])` (line 250):
CPython's `max` keeps the current maximum on ties, so the first maximal
element wins; on an empty list `prompts[0]` raises, modelled by `none`. -/
def selectBest : List ScoredVariant → Option ScoredVariant
  | [] => none
  | p :: rest => some (rest.foldl (fun best q => if best.score < q.score then q else best) p)

/-- `generate_prompts` (lines 14-72): build the meta-request, call the model
(whose failure propagates), and segment the response. -/
def generate_prompts (complete : List Char → Except (List Char) (List Char))
    (rough_prompt : List Char) (creativity_level : Int) :
    Except (List Char) (List GenVariant) :=
  match complete (meta_prompt rough_prompt creativity_level) with
  | Except.error e => Except.error e
  | Except.ok response => Except.ok (segmentResponse response)

/-- The dictionary returned by `run_studio` (lines 256-260). -/
structure RunResult where
  prompts : List ScoredVariant
  refined_prompt : List Char
  report : List Char
deriving Repr

/-- `run_studio` (lines 220-260): generate (failure fatal), test+score each
variant with per-variant isolation, select the best, refine (failure
recovered inside `refine_prompt`), and produce the report. -/
def run_studio (genComplete : List Char → Except (List Char) (List Char))
    (testComplete : Nat → Nat → Except (List Char) (List Char))
    (refineComplete : List Char → Except (List Char) (List Char))
    (now rough_prompt : List Char) (creativity_level : Int) (iterations : Nat) :
    Except (List Char) RunResult :=
  match generate_prompts genComplete rough_prompt creativity_level with
  | Except.error e => Except.error e
  | Except.ok prompts =>
    match selectBest (testAndScoreAll testComplete iterations 0 prompts) with
    | none => Except.error (str "list index out of range")
    | some best =>
      match generate_report now rough_prompt (testAndScoreAll testComplete iterations 0 prompts)
          (refine_prompt refineComplete best.prompt best.output best.score) with
      | none => Except.error (str "max() arg is an empty sequence")
      | some rep =>
        Except.ok ⟨testAndScoreAll testComplete iterations 0 prompts,
          refine_prompt refineComplete best.prompt best.output best.score, rep⟩

theorem testAndScoreAll_length (oracle : Nat → Nat → Except (List Char) (List Char))
    (iterations : Nat) : ∀ (gs : List GenVariant) (k : Nat),
    (testAndScoreAll oracle iterations k gs).length = gs.length := by
  intro gs
  induction gs with
  | nil => intro k; rfl
  | cons g t ih => intro k; simp [testAndScoreAll, ih]

theorem testAndScoreAll_getElem? (oracle : Nat → Nat → Except (List Char) (List Char))
    (iterations : Nat) : ∀ (gs : List GenVariant) (j k : Nat),
    (testAndScoreAll oracle iterations k gs)[j]? =
      (gs[j]?).map fun g => scoreOne (test_prompt (oracle (k + j)) iterations) g := by
  intro gs
  induction gs with
  | nil => intro j k; rfl
  | cons g t ih =>
    intro j k
    cases j with
    | zero => simp [testAndScoreAll]
    | succ j' =>
      simp only [testAndScoreAll, List.getElem?_cons_succ]
      rw [ih j' (k + 1)]
      rw [show k + 1 + j' = k + (j' + 1) by omega]

theorem scoreOne_id (t : Except (List Char) (List Char)) (g : GenVariant) :
    (scoreOne t g).id = g.id := by
  unfold scoreOne
  cases t <;> rfl

theorem testAndScoreAll_map_id (oracle : Nat → Nat → Except (List Char) (List Char))
    (iterations : Nat) : ∀ (gs : List GenVariant) (k : Nat),
    (testAndScoreAll oracle iterations k gs).map (fun v => v.id) =
      gs.map (fun g => g.id) := by
  intro gs
  induction gs with
  | nil => intro k; rfl
  | cons g t ih =>
    intro k
    simp only [testAndScoreAll, List.map_cons, scoreOne_id, ih]

/-- CPython `max` with a key returns the first element attaining the
maximum: the selected element splits the list so that everything before it
is strictly smaller and nothing anywhere is larger. -/
theorem selectBest_first_max :
    ∀ (l : List ScoredVariant) (b : ScoredVariant), selectBest l = some b →
      ∃ l1 l2, l = l1 ++ b :: l2 ∧ (∀ v ∈ l1, v.score < b.score) ∧
        ∀ v ∈ l, v.score ≤ b.score := by
  have key : ∀ (rest : List ScoredVariant) (p : ScoredVariant),
      ∃ l1 l2,
        p :: rest = l1 ++ (rest.foldl (fun best q => if best.score < q.score then q else best) p) :: l2 ∧
        (∀ v ∈ l1, v.score < (rest.foldl (fun best q => if best.score < q.score then q else best) p).score) ∧
        ∀ v ∈ p :: rest, v.score ≤ (rest.foldl (fun best q => if best.score < q.score then q else best) p).score := by
    intro rest
    induction rest with
    | nil =>
      intro p
      exact ⟨[], [], rfl, by simp, by simp⟩
    | cons q t ih =>
      intro p
      rw [List.foldl_cons]
      by_cases hpq : p.score < q.score
      · rw [if_pos hpq]
        obtain ⟨l1, l2, hdec, hlt, hle⟩ := ih q
        refine ⟨p :: l1, l2, ?_, ?_, ?_⟩
        · rw [List.cons_append, ← hdec]
        · intro v hv
          rcases List.mem_cons.mp hv with h | h
          · subst h
            exact lt_of_lt_of_le hpq (hle q (List.mem_cons_self q t))
          · exact hlt v h
        · intro v hv
          rcases List.mem_cons.mp hv with h | h
          · subst h
            exact le_of_lt (lt_of_lt_of_le hpq (hle q (List.mem_cons_self q t)))
          · exact hle v h
      · rw [if_neg hpq]
        have hqp : q.score ≤ p.score := Nat.le_of_not_lt hpq
        obtain ⟨l1, l2, hdec, hlt, hle⟩ := ih p
        cases l1 with
        | nil =>
          rw [List.nil_append] at hdec
          obtain ⟨hb, ht⟩ := List.cons.inj hdec
          refine ⟨[], q :: t, ?_, ?_, ?_⟩
          · rw [List.nil_append, ← hb]
          · intro v hv
            exact absurd hv (List.not_mem_nil v)
          · intro v hv
            rcases List.mem_cons.mp hv with h | h
            · rw [h]
              exact hle p (List.mem_cons_self p t)
            · rcases List.mem_cons.mp h with h2 | h2
              · subst h2
                rw [← hb]
                exact hqp
              · exact hle v (List.mem_cons_of_mem p h2)
        | cons x l1' =>
          rw [List.cons_append] at hdec
          obtain ⟨hx, ht⟩ := List.cons.inj hdec
          subst hx
          have hplt : p.score < (t.foldl (fun best q => if best.score < q.score then q else best) p).score :=
            hlt p (List.mem_cons_self p l1')
          refine ⟨p :: q :: l1', l2, ?_, ?_, ?_⟩
          · rw [List.cons_append, List.cons_append, ← ht]
          · intro v hv
            rcases List.mem_cons.mp hv with h | h
            · subst h; exact hplt
            · rcases List.mem_cons.mp h with h2 | h2
              · subst h2
                exact lt_of_le_of_lt hqp hplt
              · exact hlt v (List.mem_cons_of_mem p h2)
          · intro v hv
            rcases List.mem_cons.mp hv with h | h
            · rw [h]
              exact hle p (List.mem_cons_self p t)
            · rcases List.mem_cons.mp h with h2 | h2
              · subst h2
                exact le_of_lt (lt_of_le_of_lt hqp hplt)
              · exact hle v (List.mem_cons_of_mem p h2)
  intro l b h
  match l, h with
  | p :: rest, h =>
    have hb : rest.foldl (fun best q => if best.score < q.score then q else best) p = b := by
      have := h
      unfold selectBest at this
      exact Option.some.inj this
    obtain ⟨l1, l2, hdec, hlt, hle⟩ := key rest p
    rw [hb] at hdec hlt hle
    exact ⟨l1, l2, hdec, hlt, hle⟩

/-- Claim C1: in any orchestrator run whose generation call succeeds and in
which the `test_prompt` stage fails for exactly the variant at 0-based
position `k` (id `k+1`) and succeeds for the other three, the run still
returns a RunResult with exactly 4 variants (ids 1..4 in generation order);
the failed variant's output is the error-describing string `"Error: " + e`
and its score is 0; every other variant carries its own test output and the
score of that output; and the variant handed to the refiner is the first
variant (in generation order, hence of lowest id) attaining the maximum
score — everything before it scores strictly less and nothing scores more. -/
theorem run_studio_single_failure_isolated
    (genComplete : List Char → Except (List Char) (List Char))
    (testComplete : Nat → Nat → Except (List Char) (List Char))
    (refineComplete : List Char → Except (List Char) (List Char))
    (now rough_prompt response e : List Char) (creativity_level : Int)
    (iterations k : Nat) (outs : Nat → List Char)
    (hgen : genComplete (meta_prompt rough_prompt creativity_level) = Except.ok response)
    (_hk : k < 4)
    (herr : test_prompt (testComplete k) iterations = Except.error e)
    (hok : ∀ j, j < 4 → j ≠ k →
      test_prompt (testComplete j) iterations = Except.ok (outs j)) :
    ∃ rr, run_studio genComplete testComplete refineComplete now rough_prompt
        creativity_level iterations = Except.ok rr ∧
      rr.prompts.length = 4 ∧
      rr.prompts.map (fun v => v.id) = [1, 2, 3, 4] ∧
      (∀ g, (segmentResponse response)[k]? = some g →
        rr.prompts[k]? = some ⟨g.id, g.style, g.prompt, str "Error: " ++ e, 0⟩) ∧
      (∀ j, j < 4 → j ≠ k → ∀ g, (segmentResponse response)[j]? = some g →
        rr.prompts[j]? = some ⟨g.id, g.style, g.prompt, outs j, score_output (outs j) g.prompt⟩) ∧
      ∃ best l1 l2, rr.prompts = l1 ++ best :: l2 ∧
        (∀ v ∈ l1, v.score < best.score) ∧
        (∀ v ∈ rr.prompts, v.score ≤ best.score) ∧
        rr.refined_prompt = refine_prompt refineComplete best.prompt best.output best.score := by
  have hPlen : (segmentResponse response).length = 4 := by
    rw [segmentResponse_unfold]; rfl
  have hslen :
      (testAndScoreAll testComplete iterations 0 (segmentResponse response)).length = 4 := by
    rw [testAndScoreAll_length]; exact hPlen
  obtain ⟨best, hbest⟩ : ∃ b,
      selectBest (testAndScoreAll testComplete iterations 0 (segmentResponse response)) = some b := by
    cases hsc : testAndScoreAll testComplete iterations 0 (segmentResponse response) with
    | nil => rw [hsc] at hslen; exact absurd hslen (by decide)
    | cons p rest => exact ⟨_, rfl⟩
  obtain ⟨rep, hrep⟩ : ∃ r,
      generate_report now rough_prompt
        (testAndScoreAll testComplete iterations 0 (segmentResponse response))
        (refine_prompt refineComplete best.prompt best.output best.score) = some r := by
    cases hsc : testAndScoreAll testComplete iterations 0 (segmentResponse response) with
    | nil => rw [hsc] at hslen; exact absurd hslen (by decide)
    | cons p rest => exact ⟨_, rfl⟩
  refine ⟨⟨testAndScoreAll testComplete iterations 0 (segmentResponse response),
      refine_prompt refineComplete best.prompt best.output best.score, rep⟩,
    ?_, hslen, ?_, ?_, ?_, ?_⟩
  · unfold run_studio generate_prompts
    rw [hgen]
    dsimp only
    rw [hbest]
    dsimp only
    rw [hrep]
  · show (testAndScoreAll testComplete iterations 0 (segmentResponse response)).map
        (fun v => v.id) = [1, 2, 3, 4]
    rw [testAndScoreAll_map_id, segmentResponse_unfold]
    simp only [buildVariant_eq, List.map_cons, List.map_nil]
  · intro g hg
    show (testAndScoreAll testComplete iterations 0 (segmentResponse response))[k]? = _
    simp only [testAndScoreAll_getElem?, Nat.zero_add, hg, herr, Option.map_some', scoreOne]
  · intro j hj hne g hg
    show (testAndScoreAll testComplete iterations 0 (segmentResponse response))[j]? = _
    simp only [testAndScoreAll_getElem?, Nat.zero_add, hg, hok j hj hne,
      Option.map_some', scoreOne]
  · obtain ⟨l1, l2, hdec, hlt, hle⟩ := selectBest_first_max _ best hbest
    exact ⟨best, l1, l2, hdec, hlt, hle, rfl⟩

/-- Generation oracle of the C1 witness: always returns `rexC2`. -/
def w1gen : List Char → Except (List Char) (List Char) := fun _ => Except.ok rexC2

/-- Test oracle of the C1 witness: the variant at position 1 (id 2) fails,
the rest answer "out". -/
def w1test : Nat → Nat → Except (List Char) (List Char) := fun v _ =>
  if v = 1 then Except.error (str "boom") else Except.ok (str "out")

/-- Refinement oracle of the C1 witness: always fails (so the refiner falls
back to the best prompt). -/
def w1refine : List Char → Except (List Char) (List Char) := fun _ => Except.error (str "no")

/-- Claim C1 (witness): the isolation theorem on a concrete run in which
only variant 2's single test call fails. -/
theorem run_studio_single_failure_isolated_witness :
    ∃ rr, run_studio w1gen w1test w1refine (str "T") (str "idea") 5 1 = Except.ok rr ∧
      rr.prompts.length = 4 ∧
      rr.prompts.map (fun v => v.id) = [1, 2, 3, 4] ∧
      (∀ g, (segmentResponse rexC2)[1]? = some g →
        rr.prompts[1]? = some ⟨g.id, g.style, g.prompt, str "Error: " ++ str "boom", 0⟩) ∧
      (∀ j, j < 4 → j ≠ 1 → ∀ g, (segmentResponse rexC2)[j]? = some g →
        rr.prompts[j]? = some ⟨g.id, g.style, g.prompt, str "Iteration 1: out",
          score_output (str "Iteration 1: out") g.prompt⟩) ∧
      ∃ best l1 l2, rr.prompts = l1 ++ best :: l2 ∧
        (∀ v ∈ l1, v.score < best.score) ∧
        (∀ v ∈ rr.prompts, v.score ≤ best.score) ∧
        rr.refined_prompt = refine_prompt w1refine best.prompt best.output best.score :=
  run_studio_single_failure_isolated w1gen w1test w1refine (str "T") (str "idea") rexC2
    (str "boom") 5 1 1 (fun _ => str "Iteration 1: out") rfl (by decide) (by decide) (by decide)
